import Mathlib

/-!
Shallow embedding of `src/function_app.py`: an Azure Functions app with five
HTTP endpoints (`create_ticket`, `get_ticket_status`, `send_notification`,
`start_provisioning_workflow`, `run_gpt4o_advanced`) backed by a partitioned
table store and an upstream chat-completion service.

JSON values, Python truthiness, the table client (upsert / get-by-key with
possible failures), and each handler are translated directly from the source.
External nondeterminism (the uuid hex string, store failures, the upstream
model outcome) is passed in as explicit parameters.
-/

/-- A JSON value, as produced by `req.get_json()`. -/
inductive Json where
  | null
  | bool (b : Bool)
  | num (n : Int)
  | str (s : String)
  | arr (xs : List Json)
  | obj (fields : List (String × Json))
deriving Repr

/-- Python truthiness of a JSON value: `None`, `False`, `0`, `""`, `[]`, `\x7b\x7d`
are falsy, everything else truthy. -/
def Json.falsy : Json → Bool
  | .null => true
  | .bool b => !b
  | .num n => n == 0
  | .str s => s == ""
  | .arr xs => xs.isEmpty
  | .obj fs => fs.isEmpty

/-- Lookup a key in a JSON object field list (Python `dict.get` on a parsed
JSON object: `none` means the key is absent, i.e. Python `None`). -/
def Json.objGet (fields : List (String × Json)) (k : String) : Option Json :=
  (fields.find? (fun p => p.1 == k)).map Prod.snd

/-- Python `body.get(k)` where `body` is an arbitrary parsed JSON value:
on a JSON object it returns the value (or `none` for a missing key); on any
other value (list, string, number, ...) it raises `AttributeError`, modelled
as the `.error` branch. -/
def Json.get (j : Json) (k : String) : Except String (Option Json) :=
  match j with
  | .obj fields => .ok (Json.objGet fields k)
  | _ => .error "AttributeError: get"

/-- Truthiness of the result of `body.get(k)`: absent keys are Python `None`,
hence falsy. `if not x` in the source is `if !(pyTruthy x)` here. -/
def pyTruthy (v : Option Json) : Bool :=
  match v with
  | none => false
  | some j => !j.falsy

/-- A table entity: partition key, row key, and the remaining attributes
(a Python dict whose values are arbitrary JSON-representable objects). -/
structure Entity where
  partitionKey : String
  rowKey : String
  attrs : List (String × Json)
deriving Repr

/-- `entity.get(k, dflt)` on a table entity: attribute value if present,
else the default. -/
def Entity.getAttr (e : Entity) (k : String) (dflt : Json) : Json :=
  match Json.objGet e.attrs k with
  | some v => v
  | none => dflt

/-- Whether an entity sits at partition `p`, row key `k`. The row key passed
by `get_ticket_status` is the JSON value of `ticket_id`; stored row keys are
strings, so a non-string key matches nothing. -/
def entityKeyMatch (p : String) (k : Json) (e : Entity) : Bool :=
  e.partitionKey == p &&
    (match k with
     | .str s => e.rowKey == s
     | _ => false)

/-- Overwrite-or-insert semantics of `upsert_entity` on the table contents:
replace the first entity with the same partition and row key, else append. -/
def upsertRow (t : List Entity) (e : Entity) : List Entity :=
  match t with
  | [] => [e]
  | x :: xs =>
      if x.partitionKey == e.partitionKey && x.rowKey == e.rowKey then
        e :: xs
      else
        x :: upsertRow xs e

/-- The table client. `writeError` / `readError` model the cloud service
failing the next write / read with an exception carrying that message
(`readError` distinct from the not-found case, which the contents decide). -/
structure TableClient where
  writeError : Option String
  readError : Option String
  table : List Entity
deriving Repr

/-- `table_client.upsert_entity(entity)`: raises (the `.error` branch) when
the service fails, else returns the updated client state. -/
def TableClient.upsert (c : TableClient) (e : Entity) : Except String TableClient :=
  match c.writeError with
  | some msg => .error msg
  | none => .ok { c with table := upsertRow c.table e }

/-- Outcome of `table_client.get_entity`: the entity, a
`ResourceNotFoundError`, or some other service exception. -/
inductive GetResult where
  | found (e : Entity)
  | notFound
  | otherError (msg : String)
deriving Repr

/-- `table_client.get_entity(partition_key=p, row_key=k)`. -/
def TableClient.getEntity (c : TableClient) (p : String) (k : Json) : GetResult :=
  match c.readError with
  | some msg => .otherError msg
  | none =>
      match c.table.find? (entityKeyMatch p k) with
      | some e => .found e
      | none => .notFound

/-- The request body as seen through `req.get_json()`: either a `ValueError`
(invalid JSON, carrying the exception message) or a parsed JSON value. -/
inductive RequestBody where
  | invalid (msg : String)
  | valid (j : Json)
deriving Repr

/-- What a handler call produces: an HTTP response with a JSON body (built by
`json_response` or `func.HttpResponse` with `json.dumps`), or an exception
that escapes the handler uncaught. -/
inductive HandlerResult where
  | response (status : Nat) (body : Json)
  | raised (msg : String)
deriving Repr

/-- True when the handler produced an HTTP response rather than letting an
exception escape. -/
def HandlerResult.isResponse : HandlerResult → Bool
  | .response _ _ => true
  | .raised _ => false

/-- The HTTP status code of the result, when there is one. -/
def HandlerResult.status : HandlerResult → Option Nat
  | .response s _ => some s
  | .raised _ => none

/-- Lowercase hexadecimal digits: the alphabet of `uuid.uuid4().hex`. -/
def lowerHexChars : List Char :=
  "0123456789abcdef".data

/-- Uppercase hexadecimal digits: the alphabet `[0-9A-F]` of the id patterns. -/
def upperHexChars : List Char :=
  "0123456789ABCDEF".data

/-- Python `hex[:8].upper()`: the first eight characters, uppercased. -/
def pySlice8Upper (hexStr : String) : String :=
  String.mk ((hexStr.data.take 8).map Char.toUpper)

/-- Whether `s` matches `<pre>[0-9A-F]\x7b8\x7d` for a literal prefix given as a
character list. -/
def matchesIdPattern (pre : List Char) (s : String) : Bool :=
  decide (s.data.take pre.length = pre) &&
    decide ((s.data.drop pre.length).length = 8) &&
    (s.data.drop pre.length).all (fun c => decide (c ∈ upperHexChars))

/-- The `create_ticket` handler. `uuidHex` is the value of
`uuid.uuid4().hex` drawn for this request; the result pairs the HTTP outcome
with the table-client state after the call. -/
def create_ticket (client : TableClient) (uuidHex : String) (req : RequestBody) :
    HandlerResult × TableClient :=
  match req with
  | .invalid _ => (.response 400 (.obj [("error", .str "Invalid JSON body")]), client)
  | .valid body =>
      match body.get "user_id" with
      | .error e => (.raised e, client)
      | .ok user_id =>
          match body.get "issue_description" with
          | .error e => (.raised e, client)
          | .ok issue_description =>
              if !(pyTruthy user_id) || !(pyTruthy issue_description) then
                (.response 400
                  (.obj [("error", .str "Missing required fields: user_id, issue_description")]),
                 client)
              else
                let ticket_id := "INC-" ++ pySlice8Upper uuidHex
                let entity : Entity :=
                  { partitionKey := "Tickets"
                    rowKey := ticket_id
                    attrs := [("user_id", user_id.getD .null),
                              ("issue_description", issue_description.getD .null),
                              ("status", .str "OPEN")] }
                match client.upsert entity with
                | .error _ =>
                    (.response 500 (.obj [("error", .str "Error saving ticket in storage")]),
                     client)
                | .ok clientAfter =>
                    (.response 200
                      (.obj [("ticket_id", .str ticket_id), ("status", .str "OPEN")]),
                     clientAfter)

/-- The `get_ticket_status` handler. Only `ResourceNotFoundError` is caught
around the store read; any other store exception escapes. -/
def get_ticket_status (client : TableClient) (req : RequestBody) : HandlerResult :=
  match req with
  | .invalid _ => .response 400 (.obj [("error", .str "Invalid JSON body")])
  | .valid body =>
      match body.get "ticket_id" with
      | .error e => .raised e
      | .ok ticket_id =>
          if !(pyTruthy ticket_id) then
            .response 400 (.obj [("error", .str "Missing required field: ticket_id")])
          else
            match client.getEntity "Tickets" (ticket_id.getD .null) with
            | .found entity =>
                .response 200
                  (.obj [("ticket_id", ticket_id.getD .null),
                         ("status", entity.getAttr "status" (.str "UNKNOWN"))])
            | .notFound => .response 404 (.obj [("error", .str "Ticket not found")])
            | .otherError msg => .raised msg

/-- The `send_notification` handler (mock: validates and acknowledges). -/
def send_notification (req : RequestBody) : HandlerResult :=
  match req with
  | .invalid _ => .response 400 (.obj [("error", .str "Invalid JSON body")])
  | .valid body =>
      match body.get "user_id" with
      | .error e => .raised e
      | .ok user_id =>
          match body.get "message" with
          | .error e => .raised e
          | .ok message =>
              if !(pyTruthy user_id) || !(pyTruthy message) then
                .response 400
                  (.obj [("error", .str "Missing required fields: user_id, message")])
              else
                .response 200 (.obj [("success", .bool true)])

/-- The `start_provisioning_workflow` handler (mock: validates, draws a
workflow id, persists nothing). `uuidHex` is this request's
`uuid.uuid4().hex`. -/
def start_provisioning_workflow (uuidHex : String) (req : RequestBody) : HandlerResult :=
  match req with
  | .invalid _ => .response 400 (.obj [("error", .str "Invalid JSON body")])
  | .valid body =>
      match body.get "user_id" with
      | .error e => .raised e
      | .ok user_id =>
          match body.get "request_type" with
          | .error e => .raised e
          | .ok request_type =>
              if !(pyTruthy user_id) || !(pyTruthy request_type) then
                .response 400
                  (.obj [("error", .str "Missing required fields: user_id, request_type")])
              else
                .response 200
                  (.obj [("workflow_id", .str ("WF-" ++ pySlice8Upper uuidHex)),
                         ("started", .bool true)])

/-- Outcome of the upstream `chat.completions.create` call: the returned
message text, or an exception carrying `str(e)`. -/
inductive LlmResult where
  | success (text : String)
  | failure (msg : String)
deriving Repr

/-- The `run_gpt4o_advanced` handler. The whole body sits inside
`try ... except Exception as e`, so a JSON parse error or an `AttributeError`
from `body.get` is converted to a 500 response carrying `str(e)`, exactly as
an upstream failure is. `llm` is the outcome the upstream call would have. -/
def run_gpt4o_advanced (llm : LlmResult) (req : RequestBody) : HandlerResult :=
  match req with
  | .invalid msg => .response 500 (.obj [("error", .str msg)])
  | .valid body =>
      match body.get "prompt" with
      | .error e => .response 500 (.obj [("error", .str e)])
      | .ok prompt =>
          if !(pyTruthy prompt) then
            .response 400
              (.obj [("error", .str "El campo \u0027prompt\u0027 es obligatorio.")])
          else
            match llm with
            | .failure msg => .response 500 (.obj [("error", .str msg)])
            | .success text => .response 200 (.obj [("answer", .str text)])

/-- The five routes of the function app. -/
inductive Route where
  | createTicket
  | getTicketStatus
  | sendNotification
  | startProvisioningWorkflow
  | runGpt4oAdvanced
deriving Repr, DecidableEq

/-- Dispatch a request to its handler, threading the table-client state
(only `create_ticket` writes to the store). -/
def handle (client : TableClient) (llm : LlmResult) (uuidHex : String)
    (route : Route) (req : RequestBody) : HandlerResult × TableClient :=
  match route with
  | .createTicket => create_ticket client uuidHex req
  | .getTicketStatus => (get_ticket_status client req, client)
  | .sendNotification => (send_notification req, client)
  | .startProvisioningWorkflow => (start_provisioning_workflow uuidHex req, client)
  | .runGpt4oAdvanced => (run_gpt4o_advanced llm req, client)

/-! ## Helper lemmas -/

/-- Uppercasing a lowercase hexadecimal digit yields an uppercase one. -/
theorem toUpper_mem_upperHex : ∀ c ∈ lowerHexChars, Char.toUpper c ∈ upperHexChars := by
  decide

/-- Generated ids `p ++ hex[:8].upper()` match the pattern `p[0-9A-F]\x7b8\x7d`
whenever the hex source has at least eight lowercase-hex characters. -/
theorem matchesIdPattern_append (p hexStr : String)
    (hlen : 8 ≤ hexStr.data.length) (hchars : ∀ c ∈ hexStr.data, c ∈ lowerHexChars) :
    matchesIdPattern p.data (p ++ pySlice8Upper hexStr) = true := by
  have hdata : (p ++ pySlice8Upper hexStr).data
      = p.data ++ (hexStr.data.take 8).map Char.toUpper := by
    simp [pySlice8Upper]
  rw [matchesIdPattern, hdata]
  rw [Bool.and_eq_true, Bool.and_eq_true]
  refine ⟨⟨?_, ?_⟩, ?_⟩
  · simp [List.take_left]
  · simp only [List.drop_left, decide_eq_true_eq, List.length_map, List.length_take]
    omega
  · rw [List.all_eq_true]
    intro c hc
    rw [List.drop_left] at hc
    simp only [List.mem_map] at hc
    obtain ⟨c0, hc0, rfl⟩ := hc
    have hmem : c0 ∈ hexStr.data := List.take_subset _ _ hc0
    simpa using toUpper_mem_upperHex c0 (hchars c0 hmem)

/-- After upserting `e`, looking `e` up by its own keys finds exactly `e`. -/
theorem find_upsertRow (t : List Entity) (e : Entity) :
    (upsertRow t e).find? (entityKeyMatch e.partitionKey (.str e.rowKey)) = some e := by
  induction t with
  | nil => simp [upsertRow, List.find?, entityKeyMatch]
  | cons x xs ih =>
      by_cases h : (x.partitionKey == e.partitionKey && x.rowKey == e.rowKey) = true
      · simp only [upsertRow, h, if_true, List.find?, entityKeyMatch]
        simp
      · simp only [upsertRow, h, if_false, Bool.false_eq_true, ite_false, List.find?,
          entityKeyMatch]
        exact ih

/-! ## Claim theorems -/

/-- C1: a create_ticket request with non-empty `user_id` and
`issue_description` whose store write fails returns HTTP 500 with an error
body; the body carries neither a success indication nor a `ticket_id`, and
the table state is unchanged (the generated id is discarded). -/
theorem create_ticket_store_failure_returns_500_and_discards_id
    (client : TableClient) (uuidHex : String) (fs : List (String × Json)) (m : String)
    (hw : client.writeError = some m)
    (hu : pyTruthy (Json.objGet fs "user_id") = true)
    (hd : pyTruthy (Json.objGet fs "issue_description") = true) :
    (create_ticket client uuidHex (.valid (.obj fs))).1 =
      .response 500 (.obj [("error", .str "Error saving ticket in storage")]) ∧
    (create_ticket client uuidHex (.valid (.obj fs))).2 = client ∧
    Json.objGet [("error", Json.str "Error saving ticket in storage")] "ticket_id" = none ∧
    Json.objGet [("error", Json.str "Error saving ticket in storage")] "status" = none := by
  refine ⟨?_, ?_, rfl, rfl⟩ <;>
    simp [create_ticket, Json.get, hu, hd, TableClient.upsert, hw]

/-- Witness for C1 at a concrete failing client and request. -/
theorem create_ticket_store_failure_witness :
    (create_ticket ⟨some "boom", none, []⟩ "0123456789abcdef0123456789abcdef"
        (.valid (.obj [("user_id", Json.str "u1"), ("issue_description", Json.str "vpn down")]))).1 =
      .response 500 (.obj [("error", .str "Error saving ticket in storage")]) ∧
    (create_ticket ⟨some "boom", none, []⟩ "0123456789abcdef0123456789abcdef"
        (.valid (.obj [("user_id", Json.str "u1"), ("issue_description", Json.str "vpn down")]))).2 =
      ⟨some "boom", none, []⟩ ∧
    Json.objGet [("error", Json.str "Error saving ticket in storage")] "ticket_id" = none ∧
    Json.objGet [("error", Json.str "Error saving ticket in storage")] "status" = none :=
  create_ticket_store_failure_returns_500_and_discards_id
    ⟨some "boom", none, []⟩ "0123456789abcdef0123456789abcdef"
    [("user_id", Json.str "u1"), ("issue_description", Json.str "vpn down")] "boom"
    rfl rfl rfl

/-- C5: a create_ticket request with `user_id` or `issue_description`
missing or empty returns HTTP 400, and the store state is unchanged. -/
theorem create_ticket_missing_fields_returns_400_no_write
    (client : TableClient) (uuidHex : String) (fs : List (String × Json))
    (h : pyTruthy (Json.objGet fs "user_id") = false ∨
         pyTruthy (Json.objGet fs "issue_description") = false) :
    (create_ticket client uuidHex (.valid (.obj fs))).1 =
      .response 400
        (.obj [("error", .str "Missing required fields: user_id, issue_description")]) ∧
    (create_ticket client uuidHex (.valid (.obj fs))).2 = client := by
  rcases h with h | h <;> constructor <;> simp [create_ticket, Json.get, h]

/-- Witness for C5: `issue_description` absent. -/
theorem create_ticket_missing_fields_witness :
    (create_ticket ⟨none, none, []⟩ "0123456789abcdef0123456789abcdef"
        (.valid (.obj [("user_id", Json.str "u1")]))).1 =
      .response 400
        (.obj [("error", .str "Missing required fields: user_id, issue_description")]) ∧
    (create_ticket ⟨none, none, []⟩ "0123456789abcdef0123456789abcdef"
        (.valid (.obj [("user_id", Json.str "u1")]))).2 = ⟨none, none, []⟩ :=
  create_ticket_missing_fields_returns_400_no_write
    ⟨none, none, []⟩ "0123456789abcdef0123456789abcdef"
    [("user_id", Json.str "u1")] (Or.inr rfl)

/-- C6: a get_ticket_status request with a non-empty string `ticket_id`
whose record exists in partition `Tickets` returns HTTP 200 with the
record's `status` attribute when present and the literal `UNKNOWN`
otherwise. -/
theorem get_ticket_status_found_returns_status_or_unknown
    (client : TableClient) (fs : List (String × Json)) (tid : String) (e : Entity)
    (hget : Json.objGet fs "ticket_id" = some (.str tid))
    (hne : tid ≠ "")
    (hr : client.readError = none)
    (hfind : client.table.find? (entityKeyMatch "Tickets" (.str tid)) = some e) :
    get_ticket_status client (.valid (.obj fs)) =
      .response 200 (.obj [("ticket_id", .str tid),
        ("status",
          match Json.objGet e.attrs "status" with
          | some v => v
          | none => Json.str "UNKNOWN")]) := by
  have hb : (tid == "") = false := by simp [hne]
  simp [get_ticket_status, Json.get, hget, pyTruthy, Json.falsy, hb,
        TableClient.getEntity, hr, hfind, Entity.getAttr]

/-- Witness for C6 at a stored entity lacking the `status` attribute. -/
theorem get_ticket_status_found_witness :
    get_ticket_status
        ⟨none, none, [⟨"Tickets", "INC-AAAAAAAA", [("user_id", Json.str "u1")]⟩]⟩
        (.valid (.obj [("ticket_id", .str "INC-AAAAAAAA")])) =
      .response 200 (.obj [("ticket_id", .str "INC-AAAAAAAA"),
        ("status",
          match Json.objGet (Entity.mk "Tickets" "INC-AAAAAAAA"
              [("user_id", Json.str "u1")]).attrs "status" with
          | some v => v
          | none => Json.str "UNKNOWN")]) :=
  get_ticket_status_found_returns_status_or_unknown
    ⟨none, none, [⟨"Tickets", "INC-AAAAAAAA", [("user_id", Json.str "u1")]⟩]⟩
    [("ticket_id", Json.str "INC-AAAAAAAA")] "INC-AAAAAAAA"
    ⟨"Tickets", "INC-AAAAAAAA", [("user_id", Json.str "u1")]⟩
    rfl (by decide) rfl rfl

/-- C7: a get_ticket_status request with a non-empty string `ticket_id`
that has no matching record in partition `Tickets` returns HTTP 404 with
body `error = Ticket not found`. -/
theorem get_ticket_status_not_found_returns_404
    (client : TableClient) (fs : List (String × Json)) (tid : String)
    (hget : Json.objGet fs "ticket_id" = some (.str tid))
    (hne : tid ≠ "")
    (hr : client.readError = none)
    (hfind : client.table.find? (entityKeyMatch "Tickets" (.str tid)) = none) :
    get_ticket_status client (.valid (.obj fs)) =
      .response 404 (.obj [("error", .str "Ticket not found")]) := by
  have hb : (tid == "") = false := by simp [hne]
  simp [get_ticket_status, Json.get, hget, pyTruthy, Json.falsy, hb,
        TableClient.getEntity, hr, hfind]

/-- Witness for C7 on an empty table. -/
theorem get_ticket_status_not_found_witness :
    get_ticket_status ⟨none, none, []⟩
        (.valid (.obj [("ticket_id", .str "INC-DEADBEEF")])) =
      .response 404 (.obj [("error", .str "Ticket not found")]) :=
  get_ticket_status_not_found_returns_404 ⟨none, none, []⟩
    [("ticket_id", Json.str "INC-DEADBEEF")] "INC-DEADBEEF"
    rfl (by decide) rfl rfl

/-- C10: on a body that parses as JSON but is not a JSON object, the four
handlers that catch only `ValueError` let the `AttributeError` from
`body.get` escape instead of returning a 400 response. -/
theorem nonobject_body_raises_attribute_error
    (client : TableClient) (llm : LlmResult) (uuidHex : String) (route : Route) (j : Json)
    (hroute : route ≠ Route.runGpt4oAdvanced)
    (hnotobj : ∀ fs, j ≠ Json.obj fs) :
    (handle client llm uuidHex route (.valid j)).1 = .raised "AttributeError: get" := by
  cases route
  case runGpt4oAdvanced => exact absurd rfl hroute
  all_goals cases j
  all_goals first
    | exact absurd rfl (hnotobj _)
    | rfl

/-- Witness for C10: a JSON array body sent to create_ticket. -/
theorem nonobject_body_raises_witness :
    (handle ⟨none, none, []⟩ (.success "ok") "0123456789abcdef0123456789abcdef"
        .createTicket (.valid (.arr []))).1 = .raised "AttributeError: get" :=
  nonobject_body_raises_attribute_error ⟨none, none, []⟩ (.success "ok")
    "0123456789abcdef0123456789abcdef" .createTicket (.arr [])
    (fun h => Route.noConfusion h) (fun _ h => Json.noConfusion h)

/-- C3 counterexample: a run_gpt4o_advanced request whose body is not valid
JSON returns HTTP 500 (the `ValueError` from `req.get_json()` is caught by
the blanket `except Exception`), not the claimed 400. -/
theorem run_gpt4o_invalid_json_returns_500_counterexample :
    (run_gpt4o_advanced (.success "hola")
        (.invalid "HTTP request does not contain valid JSON data")).status ≠ some 400 ∧
    (run_gpt4o_advanced (.success "hola")
        (.invalid "HTTP request does not contain valid JSON data")).status = some 500 := by
  decide

/-- C3 amended: a run_gpt4o_advanced request whose body is a JSON object
with `prompt` missing or empty returns HTTP 400; a body that is not valid
JSON instead returns HTTP 500 carrying the parse-error message. -/
theorem run_gpt4o_prompt_validation_amended
    (llm : LlmResult) (fs : List (String × Json)) (m : String)
    (hp : pyTruthy (Json.objGet fs "prompt") = false) :
    run_gpt4o_advanced llm (.valid (.obj fs)) =
      .response 400 (.obj [("error", .str "El campo \u0027prompt\u0027 es obligatorio.")]) ∧
    run_gpt4o_advanced llm (.invalid m) =
      .response 500 (.obj [("error", .str m)]) := by
  constructor
  · simp [run_gpt4o_advanced, Json.get, hp]
  · rfl

/-- Witness for the amended C3: empty body object, and an invalid body. -/
theorem run_gpt4o_prompt_validation_witness :
    run_gpt4o_advanced (.success "hola") (.valid (.obj [])) =
      .response 400 (.obj [("error", .str "El campo \u0027prompt\u0027 es obligatorio.")]) ∧
    run_gpt4o_advanced (.success "hola") (.invalid "Expecting value") =
      .response 500 (.obj [("error", .str "Expecting value")]) :=
  run_gpt4o_prompt_validation_amended (.success "hola") [] "Expecting value" rfl

/-- C8: a run_gpt4o_advanced request with a non-empty `prompt` returns
HTTP 500 with the raw upstream error message when the completion call
fails, and HTTP 200 with `answer` equal to the returned text verbatim when
it succeeds. -/
theorem run_gpt4o_upstream_outcomes
    (fs : List (String × Json)) (m text : String)
    (hp : pyTruthy (Json.objGet fs "prompt") = true) :
    run_gpt4o_advanced (.failure m) (.valid (.obj fs)) =
      .response 500 (.obj [("error", .str m)]) ∧
    run_gpt4o_advanced (.success text) (.valid (.obj fs)) =
      .response 200 (.obj [("answer", .str text)]) := by
  constructor <;> simp [run_gpt4o_advanced, Json.get, hp]

/-- Witness for C8 at a concrete prompt, failure message, and answer. -/
theorem run_gpt4o_upstream_outcomes_witness :
    run_gpt4o_advanced (.failure "APIConnectionError") (.valid (.obj [("prompt", Json.str "hola")])) =
      .response 500 (.obj [("error", .str "APIConnectionError")]) ∧
    run_gpt4o_advanced (.success "Claro, con gusto.") (.valid (.obj [("prompt", Json.str "hola")])) =
      .response 200 (.obj [("answer", .str "Claro, con gusto.")]) :=
  run_gpt4o_upstream_outcomes [("prompt", Json.str "hola")]
    "APIConnectionError" "Claro, con gusto." rfl

/-- C9: start_provisioning_workflow never writes to the store; with
`user_id` or `request_type` missing or empty it returns HTTP 400, and with
both present it returns HTTP 200 with `started = true` and a `workflow_id`
matching `WF-[0-9A-F]\x7b8\x7d`. -/
theorem start_workflow_validates_and_generates_id
    (client : TableClient) (llm : LlmResult) (uuidHex : String) (req : RequestBody)
    (fs : List (String × Json))
    (hlen : 8 ≤ uuidHex.data.length)
    (hchars : ∀ c ∈ uuidHex.data, c ∈ lowerHexChars) :
    (handle client llm uuidHex .startProvisioningWorkflow req).2 = client ∧
    ((pyTruthy (Json.objGet fs "user_id") = false ∨
      pyTruthy (Json.objGet fs "request_type") = false) →
      start_provisioning_workflow uuidHex (.valid (.obj fs)) =
        .response 400 (.obj [("error", .str "Missing required fields: user_id, request_type")])) ∧
    (pyTruthy (Json.objGet fs "user_id") = true →
     pyTruthy (Json.objGet fs "request_type") = true →
      start_provisioning_workflow uuidHex (.valid (.obj fs)) =
        .response 200 (.obj [("workflow_id", .str ("WF-" ++ pySlice8Upper uuidHex)),
                             ("started", .bool true)]) ∧
      matchesIdPattern "WF-".data ("WF-" ++ pySlice8Upper uuidHex) = true) := by
  refine ⟨rfl, ?_, ?_⟩
  · rintro (h | h) <;> simp [start_provisioning_workflow, Json.get, h]
  · intro hu hr2
    refine ⟨?_, matchesIdPattern_append "WF-" uuidHex hlen hchars⟩
    simp [start_provisioning_workflow, Json.get, hu, hr2]

/-- Witness for C9 at a concrete request and uuid hex draw. -/
theorem start_workflow_witness :
    (handle ⟨none, none, []⟩ (.success "ok") "00a1b2c3d4e5f60718293a4b5c6d7e8f"
        .startProvisioningWorkflow
        (.valid (.obj [("user_id", Json.str "u9"), ("request_type", Json.str "vm")]))).2 =
      ⟨none, none, []⟩ ∧
    ((pyTruthy (Json.objGet [("user_id", Json.str "u9"), ("request_type", Json.str "vm")] "user_id") = false ∨
      pyTruthy (Json.objGet [("user_id", Json.str "u9"), ("request_type", Json.str "vm")] "request_type") = false) →
      start_provisioning_workflow "00a1b2c3d4e5f60718293a4b5c6d7e8f"
          (.valid (.obj [("user_id", Json.str "u9"), ("request_type", Json.str "vm")])) =
        .response 400 (.obj [("error", .str "Missing required fields: user_id, request_type")])) ∧
    (pyTruthy (Json.objGet [("user_id", Json.str "u9"), ("request_type", Json.str "vm")] "user_id") = true →
     pyTruthy (Json.objGet [("user_id", Json.str "u9"), ("request_type", Json.str "vm")] "request_type") = true →
      start_provisioning_workflow "00a1b2c3d4e5f60718293a4b5c6d7e8f"
          (.valid (.obj [("user_id", Json.str "u9"), ("request_type", Json.str "vm")])) =
        .response 200 (.obj [("workflow_id",
            .str ("WF-" ++ pySlice8Upper "00a1b2c3d4e5f60718293a4b5c6d7e8f")),
          ("started", .bool true)]) ∧
      matchesIdPattern "WF-".data
        ("WF-" ++ pySlice8Upper "00a1b2c3d4e5f60718293a4b5c6d7e8f") = true) :=
  start_workflow_validates_and_generates_id ⟨none, none, []⟩ (.success "ok")
    "00a1b2c3d4e5f60718293a4b5c6d7e8f"
    (.valid (.obj [("user_id", Json.str "u9"), ("request_type", Json.str "vm")]))
    [("user_id", Json.str "u9"), ("request_type", Json.str "vm")]
    (by decide) (by decide)

/-- C2: a valid create_ticket request whose store write succeeds returns
HTTP 200 with a `ticket_id` matching `INC-[0-9A-F]\x7b8\x7d`, and a subsequent
get_ticket_status call with that id returns HTTP 200 with status `OPEN`. -/
theorem create_then_lookup_returns_open
    (client : TableClient) (uuidHex : String) (fs : List (String × Json))
    (hw : client.writeError = none) (hr : client.readError = none)
    (hlen : 8 ≤ uuidHex.data.length)
    (hchars : ∀ c ∈ uuidHex.data, c ∈ lowerHexChars)
    (hu : pyTruthy (Json.objGet fs "user_id") = true)
    (hd : pyTruthy (Json.objGet fs "issue_description") = true) :
    (create_ticket client uuidHex (.valid (.obj fs))).1 =
      .response 200 (.obj [("ticket_id", .str ("INC-" ++ pySlice8Upper uuidHex)),
                           ("status", .str "OPEN")]) ∧
    matchesIdPattern "INC-".data ("INC-" ++ pySlice8Upper uuidHex) = true ∧
    get_ticket_status (create_ticket client uuidHex (.valid (.obj fs))).2
        (.valid (.obj [("ticket_id", .str ("INC-" ++ pySlice8Upper uuidHex))])) =
      .response 200 (.obj [("ticket_id", .str ("INC-" ++ pySlice8Upper uuidHex)),
                           ("status", .str "OPEN")]) := by
  have hcr : create_ticket client uuidHex (.valid (.obj fs)) =
      (.response 200 (.obj [("ticket_id", .str ("INC-" ++ pySlice8Upper uuidHex)),
                            ("status", .str "OPEN")]),
       TableClient.mk client.writeError client.readError
        (upsertRow client.table
          (Entity.mk "Tickets" ("INC-" ++ pySlice8Upper uuidHex)
            [("user_id", (Json.objGet fs "user_id").getD .null),
             ("issue_description", (Json.objGet fs "issue_description").getD .null),
             ("status", .str "OPEN")]))) := by
    simp [create_ticket, Json.get, hu, hd, TableClient.upsert, hw]
  refine ⟨by rw [hcr], matchesIdPattern_append "INC-" uuidHex hlen hchars, ?_⟩
  rw [hcr]
  have hb : (("INC-" ++ pySlice8Upper uuidHex) == "") = false := rfl
  have hfind : List.find?
      (entityKeyMatch "Tickets" (Json.str ("INC-" ++ pySlice8Upper uuidHex)))
      (upsertRow client.table
        (Entity.mk "Tickets" ("INC-" ++ pySlice8Upper uuidHex)
          [("user_id", (Json.objGet fs "user_id").getD Json.null),
           ("issue_description", (Json.objGet fs "issue_description").getD Json.null),
           ("status", Json.str "OPEN")])) =
      some (Entity.mk "Tickets" ("INC-" ++ pySlice8Upper uuidHex)
          [("user_id", (Json.objGet fs "user_id").getD Json.null),
           ("issue_description", (Json.objGet fs "issue_description").getD Json.null),
           ("status", Json.str "OPEN")]) :=
    find_upsertRow client.table
      (Entity.mk "Tickets" ("INC-" ++ pySlice8Upper uuidHex)
        [("user_id", (Json.objGet fs "user_id").getD Json.null),
         ("issue_description", (Json.objGet fs "issue_description").getD Json.null),
         ("status", Json.str "OPEN")])
  have hbody : Json.objGet [("ticket_id", Json.str ("INC-" ++ pySlice8Upper uuidHex))]
      "ticket_id" = some (Json.str ("INC-" ++ pySlice8Upper uuidHex)) := rfl
  have hstat : Json.objGet
      [("user_id", (Json.objGet fs "user_id").getD Json.null),
       ("issue_description", (Json.objGet fs "issue_description").getD Json.null),
       ("status", Json.str "OPEN")] "status" = some (Json.str "OPEN") := rfl
  simp [get_ticket_status, Json.get, hbody, pyTruthy, Json.falsy, hb,
        TableClient.getEntity, hr, hfind, Entity.getAttr, hstat]

/-- Witness for C2 at a concrete client, uuid hex draw, and request. -/
theorem create_then_lookup_witness :
    (create_ticket ⟨none, none, []⟩ "00a1b2c3d4e5f60718293a4b5c6d7e8f"
        (.valid (.obj [("user_id", Json.str "u7"), ("issue_description", Json.str "printer")]))).1 =
      .response 200 (.obj [("ticket_id",
          .str ("INC-" ++ pySlice8Upper "00a1b2c3d4e5f60718293a4b5c6d7e8f")),
        ("status", .str "OPEN")]) ∧
    matchesIdPattern "INC-".data
      ("INC-" ++ pySlice8Upper "00a1b2c3d4e5f60718293a4b5c6d7e8f") = true ∧
    get_ticket_status
        (create_ticket ⟨none, none, []⟩ "00a1b2c3d4e5f60718293a4b5c6d7e8f"
          (.valid (.obj [("user_id", Json.str "u7"), ("issue_description", Json.str "printer")]))).2
        (.valid (.obj [("ticket_id",
          .str ("INC-" ++ pySlice8Upper "00a1b2c3d4e5f60718293a4b5c6d7e8f"))])) =
      .response 200 (.obj [("ticket_id",
          .str ("INC-" ++ pySlice8Upper "00a1b2c3d4e5f60718293a4b5c6d7e8f")),
        ("status", .str "OPEN")]) :=
  create_then_lookup_returns_open ⟨none, none, []⟩ "00a1b2c3d4e5f60718293a4b5c6d7e8f"
    [("user_id", Json.str "u7"), ("issue_description", Json.str "printer")]
    rfl rfl (by decide) (by decide) rfl rfl

/-- C4 counterexample: when the store lookup fails with an error other than
not-found, get_ticket_status does not return a JSON response — the
exception escapes the handler, contradicting the claim. -/
theorem get_ticket_status_read_error_raises_counterexample :
    (get_ticket_status ⟨none, some "ServiceRequestError: timeout", []⟩
        (.valid (.obj [("ticket_id", .str "INC-00000000")]))).isResponse = false ∧
    get_ticket_status ⟨none, some "ServiceRequestError: timeout", []⟩
        (.valid (.obj [("ticket_id", .str "INC-00000000")])) =
      .raised "ServiceRequestError: timeout" := by
  exact ⟨rfl, rfl⟩

/-- C4 amended: every handler returns a JSON body with a status code
provided the request body is invalid JSON or a JSON object and the store
lookup does not fail with an error other than not-found; outside those
conditions (a non-object JSON body reaching `body.get` outside
run_gpt4o_advanced, or another read error in get_ticket_status) the
exception escapes. -/
theorem handlers_respond_on_object_bodies
    (client : TableClient) (llm : LlmResult) (uuidHex : String)
    (route : Route) (req : RequestBody)
    (hobj : ∀ j, req = RequestBody.valid j → ∃ fs, j = Json.obj fs)
    (hr : client.readError = none) :
    ((handle client llm uuidHex route req).1).isResponse = true := by
  cases req with
  | invalid m => cases route <;> rfl
  | valid j =>
      obtain ⟨fs, rfl⟩ := hobj j rfl
      cases route
      case createTicket =>
          by_cases h : (!(pyTruthy (Json.objGet fs "user_id")) ||
              !(pyTruthy (Json.objGet fs "issue_description"))) = true <;>
            cases hw : client.writeError <;>
              simp [handle, create_ticket, Json.get, h, TableClient.upsert, hw,
                    HandlerResult.isResponse]
      case getTicketStatus =>
          by_cases h : (!(pyTruthy (Json.objGet fs "ticket_id"))) = true
          · simp [handle, get_ticket_status, Json.get, h, HandlerResult.isResponse]
          · cases hf : client.table.find?
                (entityKeyMatch "Tickets" ((Json.objGet fs "ticket_id").getD .null)) <;>
              simp [handle, get_ticket_status, Json.get, h, TableClient.getEntity, hr, hf,
                    HandlerResult.isResponse]
      case sendNotification =>
          by_cases h : (!(pyTruthy (Json.objGet fs "user_id")) ||
              !(pyTruthy (Json.objGet fs "message"))) = true <;>
            simp [handle, send_notification, Json.get, h, HandlerResult.isResponse]
      case startProvisioningWorkflow =>
          by_cases h : (!(pyTruthy (Json.objGet fs "user_id")) ||
              !(pyTruthy (Json.objGet fs "request_type"))) = true <;>
            simp [handle, start_provisioning_workflow, Json.get, h, HandlerResult.isResponse]
      case runGpt4oAdvanced =>
          by_cases h : (!(pyTruthy (Json.objGet fs "prompt"))) = true
          · simp [handle, run_gpt4o_advanced, Json.get, h, HandlerResult.isResponse]
          · cases llm <;>
              simp [handle, run_gpt4o_advanced, Json.get, h, HandlerResult.isResponse]

/-- Witness for the amended C4: an invalid-JSON request to
get_ticket_status on a healthy client yields a JSON response. -/
theorem handlers_respond_witness :
    ((handle ⟨none, none, []⟩ (.success "ok") "0123456789abcdef0123456789abcdef"
        .getTicketStatus (.invalid "Expecting value")).1).isResponse = true :=
  handlers_respond_on_object_bodies ⟨none, none, []⟩ (.success "ok")
    "0123456789abcdef0123456789abcdef" .getTicketStatus (.invalid "Expecting value")
    (fun _ h => RequestBody.noConfusion h) rfl
